import Mathlib

/-!
Verification of the blog application in `src/main.py` / `src/forms.py`.

The application is a Flask blog: three SQLAlchemy models (`User`, `BlogPost`,
`Comment`), session-based authentication (Flask-Login), and route handlers for
registration, login, post CRUD and comment editing.  Below we embed the data
model and the route handlers shallowly: the database is a `Store` of three
lists, the session's `current_user` is an `Option User` (`none` = anonymous),
and each route handler is a pure function from the store, the caller and the
submitted form data to a `Response` together with the updated store (and,
for authentication routes, the updated session).

Framework behaviour that the handlers rely on is embedded where the claims
depend on it:
  * `validate_on_submit` checks each field's validators from `forms.py`
    (`DataRequired` = non-empty; the `URL` and `Email` format validators are
    abstracted as boolean parameters `urlOk` / `emailOk`);
  * the password hash (`generate_password_hash` / `check_password_hash`) is
    abstracted as a function parameter `hash`; `check_password_hash` recomputes
    the hash of the submitted password and compares it with the stored hash;
  * SQLite assigns a fresh primary key `max id + 1` on insert;
  * the `unique=True` column constraints (`users.email`, `blog_posts.title`)
    make a commit that would duplicate a value fail with an `IntegrityError`,
    which surfaces as an internal-error response and leaves the store
    unchanged (the transaction is rolled back);
  * deleting a `BlogPost` with the default (cascade-free) relationship
    `comments = relationship("Comment", back_populates="parent_post")`
    (main.py:86) makes SQLAlchemy null out `comments.post_id` of the dependent
    comments; since that column is `nullable=False` (main.py:112) the commit
    fails with an `IntegrityError` whenever dependent comments exist, and the
    transaction is rolled back.
-/

/-- The `users` table (main.py:90-99): id (primary key), unique email,
password hash, display name.  `password` stores the salted hash produced at
registration, never the plaintext. -/
structure User where
  id : Nat
  email : String
  password : String
  name : String
deriving Repr, DecidableEq

/-- The `blog_posts` table (main.py:72-86): id, unique title, subtitle,
creation date (a display string), body, image URL, author foreign key. -/
structure BlogPost where
  id : Nat
  title : String
  subtitle : String
  date : String
  body : String
  img_url : String
  author_id : Nat
deriving Repr, DecidableEq

/-- The `comments` table (main.py:103-113): id, text, author and parent-post
foreign keys; both foreign keys are `nullable=False`. -/
structure Comment where
  id : Nat
  text : String
  author_id : Nat
  post_id : Nat
deriving Repr, DecidableEq

/-- The relational store: the three tables of `posts.db`. -/
structure Store where
  users : List User
  posts : List BlogPost
  comments : List Comment
deriving Repr, DecidableEq

/-- The observable outcomes of a request: HTTP error statuses, redirects
(carrying the flashed message where one is flashed), a rendered form, and the
internal error produced by an unhandled `IntegrityError` at commit time. -/
inductive Response where
  | forbidden403 : Response
  | notFound404 : Response
  | redirectLogin : String → Response
  | redirectIndex : Response
  | redirectPost : Nat → Response
  | renderForm : Response
  | internalError : Response
deriving Repr, DecidableEq

/-- The caller's session identity: `none` is an anonymous request
(`current_user.is_authenticated` false), `some u` is authenticated-as `u`. -/
def Caller : Type := Option User

/-- The admin check performed by the `admin_only` decorator (main.py:128-143):
`current_user.is_authenticated and current_user.id == 1`. -/
def admin_only (cu : Option User) : Bool :=
  match cu with
  | some u => u.id == 1
  | none => false

/-- The spec's name for the admin predicate; it is exactly the check made by
the `admin_only` decorator. -/
def is_admin (cu : Option User) : Bool :=
  admin_only cu

/-- The helper `comment_owner_or_admin` (main.py:147-151):
`current_user.is_authenticated and (current_user.id == 1 or
comment.author_id == current_user.id)`. -/
def comment_owner_or_admin (cu : Option User) (c : Comment) : Bool :=
  match cu with
  | some u => u.id == 1 || c.author_id == u.id
  | none => false

/-- Fresh primary key assigned by SQLite on insert: one more than the largest
id in the table. -/
def nextId (ids : List Nat) : Nat :=
  ids.foldr max 0 + 1

def nextUserId (s : Store) : Nat :=
  nextId (s.users.map User.id)

def nextPostId (s : Store) : Nat :=
  nextId (s.posts.map BlogPost.id)

/-- Validation of `RegisterForm` (forms.py:62-66): email, password and name are
all `DataRequired`; the email must also pass the `Email()` format validator,
abstracted as `emailOk`. -/
def registerFormValid (emailOk : String → Bool) (email password name : String) : Bool :=
  !(email == "") && emailOk email && !(password == "") && !(name == "")

/-- Validation of `LoginForm` (forms.py:70-73): email (`DataRequired`,
`Email()`) and password (`DataRequired`). -/
def loginFormValid (emailOk : String → Bool) (email password : String) : Bool :=
  !(email == "") && emailOk email && !(password == "")

/-- The fields of `CreatePostForm` (forms.py:53-58) as submitted. -/
structure PostForm where
  title : String
  subtitle : String
  img_url : String
  body : String
deriving Repr, DecidableEq

/-- Validation of `CreatePostForm`: every field `DataRequired`, and the image
URL must also pass the `URL()` format validator, abstracted as `urlOk`. -/
def postFormValid (urlOk : String → Bool) (f : PostForm) : Bool :=
  !(f.title == "") && !(f.subtitle == "") && !(f.img_url == "") && urlOk f.img_url
    && !(f.body == "")

/-- Validation of `CommentForm` (forms.py:77-79): `comment_text` is
`DataRequired`. -/
def commentFormValid (text : String) : Bool :=
  !(text == "")

/-- Flash message for a registration attempt with an email that already has
an account (main.py:165). -/
def msg_already_signed_up : String :=
  "You\u0027ve already signed up with that email. Log in instead."

/-- Flash message for a login attempt with an email that has no account
(main.py:200). -/
def msg_no_such_email : String :=
  "That email does not exist, please try again."

/-- Flash message for a login attempt with a wrong password (main.py:204). -/
def msg_wrong_password : String :=
  "Password incorrect, please try again."

/-- Flash message shown to an anonymous caller of `/edit-comment/<id>`
(main.py:255). -/
def msg_login_to_edit : String :=
  "You need to login to edit comments."

/-- Flash message shown to an anonymous caller of `/delete-comment/<id>`
(main.py:279). -/
def msg_login_to_delete : String :=
  "You need to login to delete comments."

/-- The `/register` handler (main.py:155-186).  On a validating submission it
looks the email up; if a user with that email exists it flashes and redirects
to the login page without touching the store or the session; otherwise it
inserts a `User` whose `password` field is the hash of the submitted password
and logs the new user in (`login_user(new_user)`).  Returns the response, the
store after the request, and the session after the request. -/
def register (hash : String → String) (emailOk : String → Bool) (s : Store)
    (cu : Option User) (email password name : String) :
    Response × Store × Option User :=
  if registerFormValid emailOk email password name then
    match s.users.find? (fun u => u.email == email) with
    | some _ => (Response.redirectLogin msg_already_signed_up, s, cu)
    | none =>
        let new_user : User :=
          { id := nextUserId s, email := email, password := hash password, name := name }
        (Response.redirectIndex, { s with users := s.users ++ [new_user] }, some new_user)
  else (Response.renderForm, s, cu)

/-- The `/login` handler (main.py:190-210).  On a validating submission it
looks the user up by email; an unknown email flashes its own message and
redirects back to login; a known email has the submitted password hashed and
compared with the stored hash (`check_password_hash`); on mismatch a distinct
message is flashed and the session is unchanged; on match the session becomes
authenticated-as that user. -/
def login (hash : String → String) (emailOk : String → Bool) (s : Store)
    (cu : Option User) (email password : String) :
    Response × Option User :=
  if loginFormValid emailOk email password then
    match s.users.find? (fun u => u.email == email) with
    | none => (Response.redirectLogin msg_no_such_email, cu)
    | some u =>
        if u.password == hash password then (Response.redirectIndex, some u)
        else (Response.redirectLogin msg_wrong_password, cu)
  else (Response.renderForm, cu)

/-- The `/edit-comment/<id>` handler (main.py:252-272).  The authentication
check comes first; only then is the comment looked up (`db.get_or_404`), the
ownership check applied, and on a validating submission the comment's text
replaced. -/
def edit_comment (s : Store) (cu : Option User) (comment_id : Nat)
    (text : String) : Response × Store :=
  match cu with
  | none => (Response.redirectLogin msg_login_to_edit, s)
  | some u =>
      match s.comments.find? (fun c => c.id == comment_id) with
      | none => (Response.notFound404, s)
      | some c =>
          if comment_owner_or_admin (some u) c then
            if commentFormValid text then
              (Response.redirectPost c.post_id,
               { s with comments := s.comments.map (fun d =>
                   if d.id == comment_id then { d with text := text } else d) })
            else (Response.renderForm, s)
          else (Response.forbidden403, s)

/-- The `/delete-comment/<id>` handler (main.py:276-290).  The authentication
check comes first; then the comment is looked up, the ownership check
applied, and the comment row deleted. -/
def delete_comment (s : Store) (cu : Option User) (comment_id : Nat) :
    Response × Store :=
  match cu with
  | none => (Response.redirectLogin msg_login_to_delete, s)
  | some u =>
      match s.comments.find? (fun c => c.id == comment_id) with
      | none => (Response.notFound404, s)
      | some c =>
          if comment_owner_or_admin (some u) c then
            (Response.redirectPost c.post_id,
             { s with comments := s.comments.filter (fun d => !(d.id == comment_id)) })
          else (Response.forbidden403, s)

/-- The `/new-post` handler (main.py:294-312), wrapped by `admin_only`: the
decorator's check runs before any of the handler body.  On a validating
submission the handler inserts a `BlogPost` authored by the caller and dated
`today`; the `unique=True` constraint on `blog_posts.title` (main.py:76)
makes the commit fail (`IntegrityError`, surfaced as an internal error, row
not persisted) when a post with the submitted title already exists. -/
def add_new_post (urlOk : String → Bool) (s : Store) (cu : Option User)
    (f : PostForm) (today : String) : Response × Store :=
  match cu with
  | none => (Response.forbidden403, s)
  | some u =>
      if admin_only (some u) then
        if postFormValid urlOk f then
          if s.posts.any (fun p => p.title == f.title) then
            (Response.internalError, s)
          else
            let new_post : BlogPost :=
              { id := nextPostId s, title := f.title, subtitle := f.subtitle,
                date := today, body := f.body, img_url := f.img_url,
                author_id := u.id }
            (Response.redirectIndex, { s with posts := s.posts ++ [new_post] })
        else (Response.renderForm, s)
      else (Response.forbidden403, s)

/-- The `/edit-post/<id>` handler (main.py:316-336), wrapped by `admin_only`.
After the admin check, the post is looked up (404 when absent) and on a
validating submission its title, subtitle, image URL and body are overwritten
and committed; the `unique=True` title constraint makes the commit fail when
the new title collides with a different post's title. -/
def edit_post (urlOk : String → Bool) (s : Store) (cu : Option User)
    (post_id : Nat) (f : PostForm) : Response × Store :=
  match cu with
  | none => (Response.forbidden403, s)
  | some u =>
      if admin_only (some u) then
        match s.posts.find? (fun p => p.id == post_id) with
        | none => (Response.notFound404, s)
        | some p =>
            if postFormValid urlOk f then
              if s.posts.any (fun q => !(q.id == p.id) && q.title == f.title) then
                (Response.internalError, s)
              else
                (Response.redirectPost p.id,
                 { s with posts := s.posts.map (fun q =>
                     if q.id == post_id then
                       { q with title := f.title, subtitle := f.subtitle,
                                img_url := f.img_url, body := f.body }
                     else q) })
            else (Response.renderForm, s)
      else (Response.forbidden403, s)

/-- The `/delete/<id>` handler (main.py:340-346), wrapped by `admin_only`.
After the admin check the post is looked up (404 when absent) and
`db.session.delete(post)` is committed.  The `comments` relationship
(main.py:86) has no delete cascade, so SQLAlchemy nulls out the dependent
comments' `post_id` on parent delete; that column is `nullable=False`
(main.py:112), so whenever the post has dependent comments the commit fails
with an `IntegrityError` (internal error, transaction rolled back, nothing
deleted).  Only a post with no dependent comments is actually removed. -/
def delete_post (s : Store) (cu : Option User) (post_id : Nat) :
    Response × Store :=
  match cu with
  | none => (Response.forbidden403, s)
  | some u =>
      if admin_only (some u) then
        match s.posts.find? (fun p => p.id == post_id) with
        | none => (Response.notFound404, s)
        | some p =>
            if s.comments.any (fun c => c.post_id == p.id) then
              (Response.internalError, s)
            else
              (Response.redirectIndex,
               { s with posts := s.posts.filter (fun q => !(q.id == post_id)) })
      else (Response.forbidden403, s)

/-! ### Concrete fixtures used by witnesses and counterexamples -/

/-- A concrete stand-in for the abstract hash function, used only to build
concrete stores for witnesses. -/
def wHash : String → String :=
  fun p => String.append "pbkdf2:" p

/-- A trivially accepting format validator for witnesses. -/
def wOk : String → Bool :=
  fun _ => true

/-- First registrant: id 1, hence the admin. -/
def wAlice : User :=
  { id := 1, email := "a@x.com", password := wHash "pw1", name := "Alice" }

/-- Second registrant: id 2, not the admin. -/
def wBob : User :=
  { id := 2, email := "b@x.com", password := wHash "pw2", name := "Bob" }

def wPost : BlogPost :=
  { id := 1, title := "Hello", subtitle := "sub", date := "May 01, 2025",
    body := "body", img_url := "http://img.example/x.png", author_id := 1 }

/-- A comment by Bob on post 1. -/
def wComment : Comment :=
  { id := 1, text := "nice post", author_id := 2, post_id := 1 }

/-- A store as produced by the scenario in the spec: Alice registered first,
Bob second, Alice created a post, Bob commented on it. -/
def wStore : Store :=
  { users := [wAlice, wBob], posts := [wPost], comments := [wComment] }

/-- A store with a post but no comments. -/
def wStoreNoComments : Store :=
  { users := [wAlice, wBob], posts := [wPost], comments := [] }

/-- A submitted post form with a fresh title. -/
def wForm : PostForm :=
  { title := "Second post", subtitle := "s2", img_url := "http://img.example/y.png",
    body := "more" }

/-- A submitted post form whose title collides with `wPost`. -/
def wFormDup : PostForm :=
  { title := "Hello", subtitle := "s3", img_url := "http://img.example/z.png",
    body := "again" }

/-! ### Claim theorems -/

/-- C4: for every user and every comment, `can_modify_comment(user, comment)`
(the code's `comment_owner_or_admin`) is true iff `user.id == comment.author_id`
or `is_admin(user)`, and it is false for every anonymous caller. -/
theorem comment_owner_or_admin_iff (u : User) (c : Comment) :
    (comment_owner_or_admin (some u) c = true ↔
      (u.id = c.author_id ∨ is_admin (some u) = true))
    ∧ comment_owner_or_admin none c = false := by
  constructor
  · constructor
    · intro h
      rcases Bool.or_eq_true_iff.mp h with h1 | h2
      · exact Or.inr (by simpa [is_admin, admin_only] using h1)
      · exact Or.inl (eq_of_beq h2).symm
    · intro h
      rcases h with h1 | h2
      · exact Bool.or_eq_true_iff.mpr (Or.inr (by simp [h1]))
      · exact Bool.or_eq_true_iff.mpr (Or.inl (by simpa [is_admin, admin_only] using h2))
  · rfl

/-- C10: in `/edit-comment/<id>` and `/delete-comment/<id>` the
authentication check runs before the comment lookup, so every anonymous
request — whatever the comment id, existing or not — is answered with a
redirect to login (with the corresponding flash message) and never with a
404, and the store is untouched. -/
theorem anonymous_comment_routes_redirect (s : Store) (comment_id : Nat)
    (text : String) :
    edit_comment s none comment_id text
      = (Response.redirectLogin msg_login_to_edit, s)
    ∧ delete_comment s none comment_id
      = (Response.redirectLogin msg_login_to_delete, s)
    ∧ (edit_comment s none comment_id text).1 ≠ Response.notFound404
    ∧ (delete_comment s none comment_id).1 ≠ Response.notFound404 := by
  refine ⟨rfl, rfl, ?_, ?_⟩ <;> exact fun h => nomatch h

/-- C3: every request to an admin-only route (`/new-post`, `/edit-post/<id>`,
`/delete/<id>`) by a caller who is not the admin — anonymous callers
included — gets a 403 before any of the handler body runs (no 404 for a
missing post, no validation), and the store is unchanged: no post is
created, modified or deleted. -/
theorem admin_routes_refuse_non_admin (urlOk : String → Bool) (s : Store)
    (cu : Option User) (f : PostForm) (today : String) (post_id : Nat)
    (h : is_admin cu = false) :
    add_new_post urlOk s cu f today = (Response.forbidden403, s)
    ∧ edit_post urlOk s cu post_id f = (Response.forbidden403, s)
    ∧ delete_post s cu post_id = (Response.forbidden403, s) := by
  cases cu with
  | none => exact ⟨rfl, rfl, rfl⟩
  | some u =>
      have h2 : admin_only (some u) = false := h
      refine ⟨?_, ?_, ?_⟩ <;>
        simp [add_new_post, edit_post, delete_post, h2]

/-- Closed instantiation of `admin_routes_refuse_non_admin`: Bob (id 2) is
refused on all three admin routes and the store is unchanged. -/
theorem admin_routes_refuse_non_admin_witness :
    is_admin (some wBob) = false
    ∧ (add_new_post wOk wStore (some wBob) wForm "June 01, 2025"
         = (Response.forbidden403, wStore)
       ∧ edit_post wOk wStore (some wBob) 1 wForm = (Response.forbidden403, wStore)
       ∧ delete_post wStore (some wBob) 1 = (Response.forbidden403, wStore)) :=
  ⟨by decide,
   admin_routes_refuse_non_admin wOk wStore (some wBob) wForm "June 01, 2025" 1
     (by decide)⟩

/-- C7: a registration attempt whose email is already present leaves the
user count unchanged, keeps the session anonymous (no `login_user` call),
and redirects to the login form with the explanatory flash message. -/
theorem register_duplicate_email_rejected (hash : String → String)
    (emailOk : String → Bool) (s : Store) (email password name : String)
    (u0 : User)
    (hvalid : registerFormValid emailOk email password name = true)
    (hdup : s.users.find? (fun u => u.email == email) = some u0) :
    register hash emailOk s none email password name
      = (Response.redirectLogin msg_already_signed_up, s, none)
    ∧ ((register hash emailOk s none email password name).2.1).users.length
        = s.users.length := by
  constructor <;> simp [register, hvalid, hdup]

/-- Closed instantiation of `register_duplicate_email_rejected`: registering
again with Alice's email changes nothing and stays anonymous. -/
theorem register_duplicate_email_rejected_witness :
    registerFormValid wOk "a@x.com" "other" "Zed" = true
    ∧ wStore.users.find? (fun u => u.email == "a@x.com") = some wAlice
    ∧ (register wHash wOk wStore none "a@x.com" "other" "Zed"
         = (Response.redirectLogin msg_already_signed_up, wStore, none)
       ∧ ((register wHash wOk wStore none "a@x.com" "other" "Zed").2.1).users.length
           = wStore.users.length) :=
  ⟨by decide, by decide,
   register_duplicate_email_rejected wHash wOk wStore "a@x.com" "other" "Zed"
     wAlice (by decide) (by decide)⟩

/-- C8: for a login attempt whose email is present, access is granted (the
session becomes authenticated-as that user) iff the hash of the submitted
password equals the stored hash; on mismatch the session is unchanged and a
redirect back to login is returned.  The comparison is
`check_password_hash(user.password, submitted)` — hashes only, never
plaintext. -/
theorem login_grants_iff_hash_matches (hash : String → String)
    (emailOk : String → Bool) (s : Store) (cu : Option User)
    (email password : String) (u : User)
    (hvalid : loginFormValid emailOk email password = true)
    (hfind : s.users.find? (fun v => v.email == email) = some u) :
    (login hash emailOk s cu email password = (Response.redirectIndex, some u)
      ↔ u.password = hash password)
    ∧ (u.password ≠ hash password →
        login hash emailOk s cu email password
          = (Response.redirectLogin msg_wrong_password, cu)) := by
  constructor
  · constructor
    · intro h
      by_contra hne
      simp [login, hvalid, hfind, hne] at h
    · intro h
      simp [login, hvalid, hfind, h]
  · intro hne
    simp [login, hvalid, hfind, hne]

/-- Closed instantiation of `login_grants_iff_hash_matches` at Alice's
account. -/
theorem login_grants_iff_hash_matches_witness :
    loginFormValid wOk "a@x.com" "pw1" = true
    ∧ wStore.users.find? (fun v => v.email == "a@x.com") = some wAlice
    ∧ ((login wHash wOk wStore none "a@x.com" "pw1"
          = (Response.redirectIndex, some wAlice)
        ↔ wAlice.password = wHash "pw1")
       ∧ (wAlice.password ≠ wHash "pw1" →
           login wHash wOk wStore none "a@x.com" "pw1"
             = (Response.redirectLogin msg_wrong_password, none))) :=
  ⟨by decide, by decide,
   login_grants_iff_hash_matches wHash wOk wStore none "a@x.com" "pw1" wAlice
     (by decide) (by decide)⟩

/-- C5: a post-creation attempt whose title equals the title of an existing
post is never persisted — the store is returned unchanged — and the attempt
never yields the success response (the collision surfaces at commit time
through the unique-title constraint as an integrity error; other branches
refuse earlier with 403 or re-render the form). -/
theorem new_post_duplicate_title_rejected (urlOk : String → Bool) (s : Store)
    (cu : Option User) (f : PostForm) (today : String)
    (hdup : s.posts.any (fun p => p.title == f.title) = true) :
    (add_new_post urlOk s cu f today).2 = s
    ∧ (add_new_post urlOk s cu f today).1 ≠ Response.redirectIndex := by
  cases cu with
  | none => exact ⟨rfl, fun h => nomatch h⟩
  | some u =>
      by_cases ha : admin_only (some u)
      · by_cases hv : postFormValid urlOk f
        · constructor <;> simp [add_new_post, ha, hv, hdup]
        · constructor <;> simp [add_new_post, ha, hv]
      · constructor <;> simp [add_new_post, ha]

/-- Closed instantiation of `new_post_duplicate_title_rejected`: the admin
submits a new post titled "Hello" while `wPost` already carries that title. -/
theorem new_post_duplicate_title_rejected_witness :
    wStore.posts.any (fun p => p.title == wFormDup.title) = true
    ∧ ((add_new_post wOk wStore (some wAlice) wFormDup "June 01, 2025").2 = wStore
       ∧ (add_new_post wOk wStore (some wAlice) wFormDup "June 01, 2025").1
           ≠ Response.redirectIndex) :=
  ⟨by decide,
   new_post_duplicate_title_rejected wOk wStore (some wAlice) wFormDup
     "June 01, 2025" (by decide)⟩

/-- C6 as stated is false: the two login-failure cases flash different
messages, so an external observer can tell an unknown email from a wrong
password.  Concrete counterexample on `wStore`. -/
theorem login_failure_messages_differ :
    (login wHash wOk wStore none "c@x.com" "pw1").1
      = Response.redirectLogin msg_no_such_email
    ∧ (login wHash wOk wStore none "a@x.com" "wrong").1
      = Response.redirectLogin msg_wrong_password
    ∧ (login wHash wOk wStore none "c@x.com" "pw1").1
      ≠ (login wHash wOk wStore none "a@x.com" "wrong").1 := by
  decide

/-- C6 amended: both login-failure cases flash a message and redirect back
to login with the session unchanged, but the two messages differ, so the
cases are distinguishable to an external observer. -/
theorem login_failure_responses (hash : String → String)
    (emailOk : String → Bool) (s : Store) (cu : Option User)
    (e1 p1 e2 p2 : String) (u : User)
    (hv1 : loginFormValid emailOk e1 p1 = true)
    (hv2 : loginFormValid emailOk e2 p2 = true)
    (habs : s.users.find? (fun v => v.email == e1) = none)
    (hpres : s.users.find? (fun v => v.email == e2) = some u)
    (hbad : u.password ≠ hash p2) :
    login hash emailOk s cu e1 p1 = (Response.redirectLogin msg_no_such_email, cu)
    ∧ login hash emailOk s cu e2 p2
        = (Response.redirectLogin msg_wrong_password, cu)
    ∧ msg_no_such_email ≠ msg_wrong_password := by
  refine ⟨?_, ?_, by decide⟩
  · simp [login, hv1, habs]
  · simp [login, hv2, hpres, hbad]

/-- Closed instantiation of `login_failure_responses` on `wStore`. -/
theorem login_failure_responses_witness :
    loginFormValid wOk "c@x.com" "pw1" = true
    ∧ loginFormValid wOk "a@x.com" "wrong" = true
    ∧ wStore.users.find? (fun v => v.email == "c@x.com") = none
    ∧ wStore.users.find? (fun v => v.email == "a@x.com") = some wAlice
    ∧ wAlice.password ≠ wHash "wrong"
    ∧ (login wHash wOk wStore none "c@x.com" "pw1"
         = (Response.redirectLogin msg_no_such_email, none)
       ∧ login wHash wOk wStore none "a@x.com" "wrong"
           = (Response.redirectLogin msg_wrong_password, none)
       ∧ msg_no_such_email ≠ msg_wrong_password) :=
  ⟨by decide, by decide, by decide, by decide, by decide,
   login_failure_responses wHash wOk wStore none "c@x.com" "pw1" "a@x.com"
     "wrong" wAlice (by decide) (by decide) (by decide) (by decide) (by decide)⟩

/-- In `List.range' 2 m` no element equals 1 (every element is at least 2). -/
theorem countP_one_range'_two (m : Nat) :
    (List.range' 2 m).countP (fun i => i == 1) = 0 := by
  rw [List.countP_eq_zero]
  intro a ha
  have hb := (List.mem_range'_1.mp ha).1
  simp only [beq_iff_eq]
  omega

/-- The list `List.range' 1 n` contains the value 1 exactly once when `n > 0`. -/
theorem countP_one_range'_one (n : Nat) (h : 0 < n) :
    (List.range' 1 n).countP (fun i => i == 1) = 1 := by
  obtain ⟨m, rfl⟩ : ∃ m, n = m + 1 := ⟨n - 1, by omega⟩
  rw [List.range'_succ, List.countP_cons, countP_one_range'_two]
  simp

/-- Sequential primary keys: the users table as built by successive inserts
holds ids `1, 2, ..., n` in order.  `register` establishes and preserves this
shape (see `register_preserves_seq_ids`). -/
def seqUserIds (s : Store) : Prop :=
  s.users.map User.id = List.range' 1 s.users.length

instance (s : Store) : Decidable (seqUserIds s) := by
  unfold seqUserIds; infer_instance

/-- C1: in any store whose user ids are the sequentially assigned
`1, ..., n` (as registration produces) with at least one user, `is_admin` is
true for exactly one user — the one with the lowest id — false for every
other user, and false for the anonymous caller; and `is_admin (some u)`
holds iff `u.id = 1`, which in such a store is the lowest id. -/
theorem is_admin_exactly_first_user (s : Store)
    (hseq : seqUserIds s) (hne : s.users ≠ []) :
    s.users.countP (fun u => is_admin (some u)) = 1
    ∧ (∀ u ∈ s.users, (is_admin (some u) = true ↔
        u.id = 1 ∧ ∀ v ∈ s.users, u.id ≤ v.id))
    ∧ is_admin none = false := by
  have hlen : 0 < s.users.length := List.length_pos.mpr hne
  refine ⟨?_, ?_, rfl⟩
  · have hmap := List.countP_map (fun i => i == 1) User.id s.users
    have : s.users.countP (fun u => is_admin (some u))
        = (s.users.map User.id).countP (fun i => i == 1) := by
      rw [hmap]; rfl
    rw [this, hseq, countP_one_range'_one _ hlen]
  · intro u hu
    constructor
    · intro hadm
      have hid : u.id = 1 := by
        have : (u.id == 1) = true := hadm
        exact eq_of_beq this
      refine ⟨hid, ?_⟩
      intro v hv
      have hvmem : v.id ∈ s.users.map User.id := List.mem_map_of_mem User.id hv
      rw [hseq] at hvmem
      have := (List.mem_range'_1.mp hvmem).1
      omega
    · rintro ⟨hid, _⟩
      show (u.id == 1) = true
      simp [hid]

/-- Closed instantiation of `is_admin_exactly_first_user` on `wStore`
(users Alice = id 1 and Bob = id 2). -/
theorem is_admin_exactly_first_user_witness :
    seqUserIds wStore
    ∧ wStore.users ≠ []
    ∧ (wStore.users.countP (fun u => is_admin (some u)) = 1
       ∧ (∀ u ∈ wStore.users, (is_admin (some u) = true ↔
           u.id = 1 ∧ ∀ v ∈ wStore.users, u.id ≤ v.id))
       ∧ is_admin none = false) :=
  ⟨by decide, by decide,
   is_admin_exactly_first_user wStore (by decide) (by decide)⟩

/-- The maximum (with default 0) of `List.range' s n`. -/
theorem foldr_max_range' (n s : Nat) :
    (List.range' s n).foldr max 0 = if n = 0 then 0 else s + n - 1 := by
  induction n generalizing s with
  | zero => rfl
  | succ m ih =>
      rw [List.range'_succ, List.foldr_cons, ih]
      cases m with
      | zero => simp
      | succ k => simp; omega

/-- A successful registration extends the sequential-ids invariant: the new
user receives id `n + 1` (SQLite: max id + 1), so ids stay `1, ..., n + 1`. -/
theorem register_preserves_seq_ids (hash : String → String)
    (emailOk : String → Bool) (s : Store) (cu : Option User)
    (email password name : String)
    (hseq : seqUserIds s)
    (hvalid : registerFormValid emailOk email password name = true)
    (hfresh : s.users.find? (fun u => u.email == email) = none) :
    seqUserIds (register hash emailOk s cu email password name).2.1 := by
  have hnext : nextUserId s = s.users.length + 1 := by
    unfold nextUserId nextId
    rw [hseq, foldr_max_range']
    rcases Nat.eq_zero_or_pos s.users.length with h | h
    · simp [h]
    · rw [if_neg (by omega)]
      omega
  unfold seqUserIds
  simp only [register, hvalid, if_true, hfresh]
  simp only [List.map_append, List.length_append, List.map_cons, List.map_nil,
    List.length_cons, List.length_nil, Nat.zero_add]
  rw [hseq, hnext]
  have h2 := @List.range'_concat 1 1 s.users.length
  simp only [one_mul, Nat.add_comm 1 s.users.length] at h2
  exact h2.symm

/-- C9: a successful edit of an existing post rewrites exactly the title,
subtitle, image-URL and body fields of that post — the structure update
`{ q with title := ..., subtitle := ..., img_url := ..., body := ... }`
leaves `id`, `date` and `author_id` untouched — every other post is mapped
to itself, and the users and comments tables are unchanged. -/
theorem edit_post_frame (urlOk : String → Bool) (s : Store) (cu : Option User)
    (post_id : Nat) (f : PostForm) (p : BlogPost)
    (ha : is_admin cu = true)
    (hfind : s.posts.find? (fun q => q.id == post_id) = some p)
    (hv : postFormValid urlOk f = true)
    (hcol : s.posts.any (fun q => !(q.id == p.id) && q.title == f.title) = false) :
    edit_post urlOk s cu post_id f
      = (Response.redirectPost p.id,
         { s with posts := s.posts.map (fun q =>
             if q.id == post_id then
               { q with title := f.title, subtitle := f.subtitle,
                        img_url := f.img_url, body := f.body }
             else q) })
    ∧ (edit_post urlOk s cu post_id f).2.users = s.users
    ∧ (edit_post urlOk s cu post_id f).2.comments = s.comments := by
  cases cu with
  | none => exact absurd ha (by simp [is_admin, admin_only])
  | some u =>
      have ha2 : admin_only (some u) = true := ha
      refine ⟨?_, ?_, ?_⟩ <;> simp [edit_post, ha2, hfind, hv, hcol]

/-- Closed instantiation of `edit_post_frame`: the admin edits post 1 with
fresh field values. -/
theorem edit_post_frame_witness :
    is_admin (some wAlice) = true
    ∧ wStore.posts.find? (fun q => q.id == 1) = some wPost
    ∧ postFormValid wOk wForm = true
    ∧ wStore.posts.any (fun q => !(q.id == wPost.id) && q.title == wForm.title)
        = false
    ∧ (edit_post wOk wStore (some wAlice) 1 wForm
         = (Response.redirectPost wPost.id,
            { wStore with posts := wStore.posts.map (fun q =>
                if q.id == 1 then
                  { q with title := wForm.title, subtitle := wForm.subtitle,
                           img_url := wForm.img_url, body := wForm.body }
                else q) })
       ∧ (edit_post wOk wStore (some wAlice) 1 wForm).2.users = wStore.users
       ∧ (edit_post wOk wStore (some wAlice) 1 wForm).2.comments
           = wStore.comments) :=
  ⟨by decide, by decide, by decide, by decide,
   edit_post_frame wOk wStore (some wAlice) 1 wForm wPost
     (by decide) (by decide) (by decide) (by decide)⟩

/-- C2 fails on the code: the `comments` relationship carries no delete
cascade while `comments.post_id` is `NOT NULL`, so the admin's delete of
post 1 — which has one dependent comment — does not leave zero comments
referencing the post: the commit fails with an integrity error, the store
is returned unchanged, and the comment still references post id 1.
(A post without comments, by contrast, is removed cleanly.) -/
theorem delete_post_with_comments_fails :
    delete_post wStore (some wAlice) 1 = (Response.internalError, wStore)
    ∧ wStore.comments.countP (fun c => c.post_id == 1) = 1
    ∧ ((delete_post wStore (some wAlice) 1).2).comments.countP
        (fun c => c.post_id == 1) = 1
    ∧ delete_post wStoreNoComments (some wAlice) 1
        = (Response.redirectIndex, { wStoreNoComments with posts := [] }) := by
  decide
